import Mathlib

/-
Verification development for the aegisx runtime orchestrator.

The Go sources are embedded shallowly:
 - pure helpers (util.ExtractPort, util.RemoveItem) become Lean functions over
   List Char / List String;
 - the Runtime record (models.Runtime) becomes a structure holding the
   persistable, observable fields (interpreter handle, cancel function and the
   live buffer pointer are not observable data and are modelled by the logs
   string and by explicit oracle parameters);
 - each registry store performed by the service (sync.Map.Store) is modelled as
   a record value appearing in an explicit list of writes, in program order;
 - external effects (the LLM client, code extraction, the HTTP health probe,
   the sandbox evaluator and the wall clock) are oracle parameters.
-/

namespace Aegisx

/-! ### Embeddings of the Go string helpers used by util.ExtractPort -/

/-- Go strings.Split with a one-character separator, accumulator form. -/
def splitOnCharAux (sep : Char) : List Char → List Char → List (List Char)
  | [], acc => [acc.reverse]
  | c :: rest, acc =>
    if c = sep then acc.reverse :: splitOnCharAux sep rest []
    else splitOnCharAux sep rest (c :: acc)

/-- Go strings.Split with a one-character separator. -/
def splitOnChar (sep : Char) (s : List Char) : List (List Char) :=
  splitOnCharAux sep s []

/-- Whether pat occurs at the head of hay. -/
def isPrefixL : List Char → List Char → Bool
  | [], _ => true
  | _ :: _, [] => false
  | a :: as, b :: bs => a = b && isPrefixL as bs

/-- Go strings.Contains: pat occurs somewhere in hay. -/
def containsSub (pat : List Char) : List Char → Bool
  | [] => isPrefixL pat []
  | c :: t => isPrefixL pat (c :: t) || containsSub pat t

/-- Whitespace as trimmed by Go strings.TrimSpace (ASCII subset; the inputs
relevant here contain only ASCII). -/
def isSpaceChar (c : Char) : Bool :=
  c = ' ' || c = '\t' || c = '\n' || c = '\r' || c = '\x0b' || c = '\x0c'

/-- Go strings.TrimSpace. -/
def trimSpace (l : List Char) : List Char :=
  ((l.dropWhile isSpaceChar).reverse.dropWhile isSpaceChar).reverse

/-- Go strings.TrimPrefix(s, ":"). -/
def trimPrefixColon : List Char → List Char
  | ':' :: t => t
  | l => l

/-- Decimal digit value, if c is a digit. -/
def digitVal (c : Char) : Option Nat :=
  if '0' ≤ c ∧ c ≤ '9' then some (c.toNat - '0'.toNat) else none

/-- Parse a nonempty all-digit string. -/
def parseDigits : List Char → Option Nat
  | [] => none
  | [c] => digitVal c
  | c :: rest =>
    match digitVal c, parseDigits rest with
    | some d, some n => some (d * 10 ^ rest.length + n)
    | _, _ => none

/-- Go strconv.Atoi: optional sign followed by at least one digit. -/
def atoi : List Char → Option Int
  | '+' :: rest => (parseDigits rest).map Int.ofNat
  | '-' :: rest => (parseDigits rest).map (fun n => -(n : Int))
  | s => (parseDigits s).map Int.ofNat

/-! ### util.ExtractPort (src/util/util.go lines 41-63) -/

/-- The loop body of util.ExtractPort over the list of log lines: for each line,
if it contains "PORT=" parse the piece after the first '=' (with a leading ':'
stripped); otherwise, if it contains ':', parse the last ':'-separated token
(trimmed); on a parse failure fall through to the next line; 0 when no line
yields a port. -/
def extractPortLines : List (List Char) → Int
  | [] => 0
  | line :: rest =>
    if containsSub ("PORT=".data) line then
      match atoi (trimPrefixColon ((splitOnChar '=' line).getD 1 [])) with
      | some p => p
      | none => extractPortLines rest
    else if containsSub [':'] line then
      let parts := splitOnChar ':' line
      if 1 < parts.length then
        match atoi (trimSpace (parts.getLastD [])) with
        | some p => p
        | none => extractPortLines rest
      else extractPortLines rest
    else extractPortLines rest

/-- util.ExtractPort: split the buffered log text on newlines and scan for the
port beacon. -/
def ExtractPort (logs : String) : Int :=
  extractPortLines (splitOnChar '\n' logs.data)

/-! ### util.RuntimeHealthCheck (src/util/util.go lines 171-179) -/

/-- The URL queried by util.RuntimeHealthCheck. The port 8080 is a literal in
the source (fmt.Sprintf("http://localhost:8080/runtime/%s", runtimeID)); the
function receives no configuration value. -/
def healthCheckURL (runtimeID : String) : String :=
  "http://localhost:8080/runtime/" ++ runtimeID

/-- util.RuntimeHealthCheck, with the HTTP client as an oracle mapping a URL to
the response status code (none = transport error). Returns true exactly when
the GET succeeds with status 200. -/
def RuntimeHealthCheck (httpGet : String → Option Nat) (runtimeID : String) : Bool :=
  match httpGet (healthCheckURL runtimeID) with
  | none => false
  | some status => status == 200

/-! ### The Runtime record (src/models/models.go) -/

/-- models.Runtime, restricted to its observable data fields. The interpreter
handle, cancel function and buffer pointer are not data; the buffered log text
is the logs field, written by the sandbox (an external collaborator) and reset
by the scanner. States are the strings the source stores: "initializing"
(models.RSINIT), "running" (models.RSRUN), "stopped", "error", "rebuilding",
"failed", "finished". -/
structure Runtime where
  id : String
  title : String
  prompt : String
  code : String
  state : String
  lastErrorMsg : String
  rebuildCount : Nat
  port : Int
  createdAt : Nat
  startedAt : Nat
  finishedAt : Nat
  logs : String
  passedHealthCheck : Bool
deriving DecidableEq

instance : Inhabited Runtime :=
  ⟨{ id := ""
     title := ""
     prompt := ""
     code := ""
     state := ""
     lastErrorMsg := ""
     rebuildCount := 0
     port := 0
     createdAt := 0
     startedAt := 0
     finishedAt := 0
     logs := ""
     passedHealthCheck := false }⟩

/-! ### Generic association-list helpers (the sync.Map registries) -/

/-- sync.Map.Delete. -/
def eraseKey {α : Type} (m : List (String × α)) (id : String) : List (String × α) :=
  m.filter (fun kv => kv.1 ≠ id)

/-- sync.Map.Load. -/
def findVal {α : Type} : List (String × α) → String → Option α
  | [], _ => none
  | (k, v) :: rest, id => if k = id then some v else findVal rest id

/-- sync.Map.Store. -/
def storeVal {α : Type} (m : List (String × α)) (id : String) (v : α) : List (String × α) :=
  (id, v) :: eraseKey m id

/-! ### The dynamic proxy table (src/unnamed/part_000, package dynamicroutes) -/

/-- The gin route pattern registered for a runtime proxy. -/
def routePath (id : String) : String :=
  "/runtime/" ++ id ++ "/*any"

/-- The base routes recreated by CreateRoutes on every rebuilt router. -/
def baseRoutes : List String :=
  ["/execute", "/stop/:id", "/status/:id"]

/-- DynamicRouteService, restricted to its observable data: the proxy map
(id to target port) and the set of route patterns on the live router. -/
structure DynamicRouteState where
  proxyMap : List (String × Int)
  routerRoutes : List String
deriving DecidableEq

/-- RegisterReverseProxy: store the proxy in the map and add the
/runtime/id/*any route to the live router. -/
def registerReverseProxy (s : DynamicRouteState) (id : String) (port : Int) : DynamicRouteState :=
  { proxyMap := storeVal s.proxyMap id port
    routerRoutes := s.routerRoutes ++ [routePath id] }

/-- DeregisterReverseProxy: when the id is absent, log a warning (the Bool) and
change nothing; otherwise delete the entry and rebuild a fresh router from the
base routes plus every remaining proxy, publishing it through the router
switcher. -/
def deregisterReverseProxy (s : DynamicRouteState) (id : String) : DynamicRouteState × Bool :=
  match findVal s.proxyMap id with
  | none => (s, true)
  | some _ =>
    let m := eraseKey s.proxyMap id
    ({ proxyMap := m
       routerRoutes := baseRoutes ++ m.map (fun kv => routePath kv.1) }, false)

/-- A route table whose router carries exactly the base routes plus one route
per registered proxy: the shape every state published by CreateRoutes followed
by register/deregister operations has. -/
def wfState (m : List (String × Int)) : DynamicRouteState :=
  { proxyMap := m
    routerRoutes := baseRoutes ++ m.map (fun kv => routePath kv.1) }

/-! ### Runtime supervisor transitions (src/services/executer/service.go) -/

/-- CreatePrompt (service.go lines 55-96) with the literal template text
abstracted as base (the template is constant text whose content the control
flow never inspects beyond this containment test). -/
def createPrompt (base prompt : String) : String :=
  if containsSub base.data prompt.data then prompt else base ++ prompt

/-- The fresh record PrepareRuntime builds and stores (lines 244-255): state
initializing, zero counters, no port, health flag false. -/
def prepareStore (id prompt code : String) (now : Nat) : Runtime :=
  { id := id
    title := ""
    prompt := prompt
    code := code
    state := "initializing"
    lastErrorMsg := ""
    rebuildCount := 0
    port := 0
    createdAt := now
    startedAt := 0
    finishedAt := 0
    logs := ""
    passedHealthCheck := false }

/-- The record ExecuteRuntime stores before evaluation starts (lines 278-282):
state becomes "running" (models.RSRUN) and startedAt is reset; no other field
is touched. -/
def executePreamble (rt : Runtime) (now : Nat) : Runtime :=
  { rt with state := "running", startedAt := now }

/-- The record StopRuntime stores (lines 394-398) after the cooperative
Shutdown, deregistration and cancellation. -/
def stopRuntimeRecord (rt : Runtime) : Runtime :=
  { rt with state := "stopped" }

/-- The deferred completion handler of the evaluation goroutine
(lines 285-303): a non-nil error other than "context canceled" records
lastErrorMsg, moves to "error" and invokes HandleRuntimeFailure (the Bool);
otherwise the record moves to "finished" with finishedAt set. -/
def evalCompletion (evalErr : Option String) (now : Nat) (rt : Runtime) : Runtime × Bool :=
  match evalErr with
  | some msg =>
    if msg ≠ "context canceled" then
      ({ rt with lastErrorMsg := msg, state := "error" }, true)
    else
      ({ rt with state := "finished", finishedAt := now }, false)
  | none => ({ rt with state := "finished", finishedAt := now }, false)

/-- Result of one poll of the log-scanner goroutine. -/
structure ScanResult where
  record : Runtime
  writes : List Runtime
  registeredProxy : Bool
  failureSignalled : Bool
deriving DecidableEq

/-- One iteration of the log-scanner goroutine (lines 306-351). When the
buffered text yields a port and no proxy is registered yet: set the port,
reset the buffer, store the record as "running", register the proxy, then
(after the settle sleep) run the health check, storing either the passed flag
or the error record and signalling HandleRuntimeFailure. Otherwise forward
the buffered lines to the operator log and reset the buffer (no registry
store). -/
def scanStep (healthOk : Bool) (isRegistered : Bool) (rt : Runtime) : ScanResult :=
  let p := ExtractPort rt.logs
  if 0 < p ∧ isRegistered = false then
    let rt1 := { rt with
                 port := p
                 logs := ""
                 state := "running" }
    if healthOk then
      let rt2 := { rt1 with passedHealthCheck := true }
      ⟨rt2, [rt1, rt2], true, false⟩
    else
      let rt2 := { rt1 with
                   lastErrorMsg := "runtime root endpoint was inaccessible"
                   state := "error" }
      ⟨rt2, [rt1, rt2], true, true⟩
  else
    ⟨{ rt with logs := "" }, [], isRegistered, false⟩

/-- Result of the 45 second watchdog goroutine. -/
structure WatchdogResult where
  record : Runtime
  cancelledEvaluation : Bool
  signalledFailure : Bool
deriving DecidableEq

/-- The 45 second port watchdog (lines 361-373): after the sleep, if no port
has been registered, cancel the evaluation, stop the runtime, record
"runtime never logged a port", move to "error" and signal
HandleRuntimeFailure; if a port has been registered it does nothing. -/
def watchdogStep (isRegistered : Bool) (rt : Runtime) : WatchdogResult :=
  if isRegistered then ⟨rt, false, false⟩
  else
    let rtStopped := stopRuntimeRecord rt
    let rtErr := { rtStopped with
                   lastErrorMsg := "runtime never logged a port"
                   state := "error" }
    ⟨rtErr, true, true⟩

/-- The record the rebuild branch of HandleRuntimeFailure stores
(lines 437-462): retry count incremented, corrected code installed, state
"rebuilding", lastErrorMsg cleared, fresh interpreter and empty buffer. The
passedHealthCheck field is not touched. -/
def rebuildStore (rt : Runtime) (newCode : String) : Runtime :=
  { rt with
    rebuildCount := rt.rebuildCount + 1
    code := newCode
    state := "rebuilding"
    lastErrorMsg := ""
    logs := "" }

/-! ### The executer service state and HandleRuntimeFailure -/

/-- ExecuterService, restricted to observable data: the runtime registry, the
ActiveRetries flag set, the retry limit and the proxy table. -/
structure SvcState where
  runtimes : List (String × Runtime)
  activeRetries : List String
  retryLimit : Nat
  proxy : DynamicRouteState
deriving DecidableEq

/-- sync.Map.LoadOrStore(id, true) on the ActiveRetries set: an atomic
test-and-set returning whether the flag was already present, together with
the updated set. -/
def loadOrStore (flags : List String) (id : String) : Bool × List String :=
  if id ∈ flags then (true, flags) else (false, id :: flags)

/-- ExecuteRuntime (lines 271-282) at the service level: load the record,
store the preamble record (state "running", startedAt reset) and spawn the
evaluation tasks. Returns the new state, the registry writes and whether the
runtime was found. -/
def executeRuntime (st : SvcState) (runtimeID : String) (now : Nat) :
    SvcState × List Runtime × Bool :=
  match findVal st.runtimes runtimeID with
  | none => (st, [], false)
  | some rt =>
    let rt1 := executePreamble rt now
    ({ st with runtimes := storeVal st.runtimes runtimeID rt1 }, [rt1], true)

/-- Which return path HandleRuntimeFailure took. -/
inductive HRFOutcome
  | skippedDuplicate
  | abortedCancelled
  | notFound
  | rebuilt
  | exhaustedReprepared
  | exhaustedBuildFailed
deriving DecidableEq

/-- Result of one HandleRuntimeFailure invocation: final service state, the
registry writes it performed in order, and the path taken. -/
structure HRFResult where
  svc : SvcState
  writes : List Runtime
  outcome : HRFOutcome
deriving DecidableEq

/-- HandleRuntimeFailure (service.go lines 402-466). pb is the prompt template
for a given id (CreatePrompt's constant text), gptCode the code extracted from
the LLM response (util.ExtractGoCode of GPTClient.SendMessage), validationOk
the verdict of code.DefaultValidator on it, now the wall clock.

Entry: LoadOrStore on ActiveRetries; if the flag was already set, return
immediately as a no-op; the deferred Delete clears the flag on every other
return path. Then: honour parent cancellation; load the record; if
rebuildCount has reached the retry limit, store the record as "failed",
deregister the proxy route, and call PrepareRuntime once more with the
original prompt and the same id followed by ExecuteRuntime; otherwise
increment the retry count, shut the old program down, deregister the route,
store the rebuilt record and re-enter ExecuteRuntime. -/
def handleRuntimeFailure (pb : String → String) (st : SvcState) (ctxCancelled : Bool)
    (gptCode : String) (validationOk : Bool) (now : Nat) (runtimeID : String) : HRFResult :=
  match loadOrStore st.activeRetries runtimeID with
  | (true, _) => ⟨st, [], .skippedDuplicate⟩
  | (false, flags) =>
    let cleared := flags.filter (fun x => x ≠ runtimeID)
    if ctxCancelled then
      ⟨{ st with activeRetries := cleared }, [], .abortedCancelled⟩
    else
      match findVal st.runtimes runtimeID with
      | none => ⟨{ st with activeRetries := cleared }, [], .notFound⟩
      | some rt =>
        if st.retryLimit ≤ rt.rebuildCount then
          let rtFailed := { rt with state := "failed" }
          let st1 : SvcState :=
            { st with
              runtimes := storeVal st.runtimes runtimeID rtFailed
              proxy := (deregisterReverseProxy st.proxy runtimeID).1 }
          let rtNew := prepareStore runtimeID (createPrompt (pb runtimeID) rt.prompt) gptCode now
          let st2 : SvcState := { st1 with runtimes := storeVal st1.runtimes runtimeID rtNew }
          if validationOk then
            let ex := executeRuntime st2 runtimeID now
            ⟨{ ex.1 with activeRetries := cleared }, [rtFailed, rtNew] ++ ex.2.1,
             .exhaustedReprepared⟩
          else
            let rtErr := { rtNew with
                           lastErrorMsg := "code validation failed"
                           state := "error" }
            ⟨{ st2 with
               runtimes := storeVal st2.runtimes runtimeID rtErr
               activeRetries := cleared },
             [rtFailed, rtNew, rtErr], .exhaustedBuildFailed⟩
        else
          let st1 : SvcState :=
            { st with proxy := (deregisterReverseProxy st.proxy runtimeID).1 }
          let rtReb := rebuildStore rt gptCode
          let st2 : SvcState := { st1 with runtimes := storeVal st1.runtimes runtimeID rtReb }
          let ex := executeRuntime st2 runtimeID now
          ⟨{ ex.1 with activeRetries := cleared }, [rtReb] ++ ex.2.1, .rebuilt⟩

/-! ### The speculative launcher (NewConcurrentExecution, lines 147-210) -/

/-- What the winner-selection loop learns when one candidate's result arrives:
the runtime id the candidate had appended to the shared runtimes slice before
sending (none when NewExecution failed before creating a runtime) and whether
the result is a success (the candidate passed its health check). -/
structure CandOutcome where
  rid : Option String
  ok : Bool
deriving DecidableEq

/-- What NewConcurrentExecution has done when it returns a winner: the winner
id, the ids on which StopRuntime and DeregisterReverseProxy were invoked
before returning, and whether every candidate context was cancelled. -/
structure LaunchResult where
  winner : String
  stopped : List String
  cancelledAll : Bool
deriving DecidableEq

/-- util.RemoveItem (src/util/util.go lines 182-189): remove the first
occurrence of an item. -/
def removeItem : List String → String → List String
  | [], _ => []
  | x :: xs, item => if x = item then xs else x :: removeItem xs item

/-- The result-collection loop of NewConcurrentExecution, processing candidate
results in arrival order while accumulating the shared runtimes slice: on the
first success, cancel every candidate context, remove the winner from the
slice, stop and deregister every remaining id, and return the winner. -/
def selectWinnerAux : List CandOutcome → List String → Option LaunchResult
  | [], _ => none
  | a :: rest, slice =>
    let slice' :=
      match a.rid with
      | some r => slice ++ [r]
      | none => slice
    if a.ok then
      some ⟨a.rid.getD "", removeItem slice' (a.rid.getD ""), true⟩
    else
      selectWinnerAux rest slice'

/-- NewConcurrentExecution's winner selection, starting from an empty slice. -/
def selectWinner (arrivals : List CandOutcome) : Option LaunchResult :=
  selectWinnerAux arrivals []

/-- Split an arrival sequence at its first successful result. -/
def firstOk : List CandOutcome → Option (List CandOutcome × CandOutcome)
  | [] => none
  | a :: rest =>
    if a.ok then some ([], a)
    else
      match firstOk rest with
      | none => none
      | some (pre, w) => some (a :: pre, w)

/-- The runtime ids registered by a sequence of candidate results. -/
def registeredIds (l : List CandOutcome) : List String :=
  l.filterMap (fun a => a.rid)

/-! ### Helper lemmas -/

theorem filter_ne_of_not_mem (ar : List String) (id : String) (h : id ∉ ar) :
    ar.filter (fun x => x ≠ id) = ar := by
  apply List.filter_eq_self.mpr
  intro a ha
  simp only [decide_eq_true_eq]
  exact fun hc => h (hc ▸ ha)

theorem findVal_storeVal_self {α : Type} (m : List (String × α)) (id : String) (v : α) :
    findVal (storeVal m id v) id = some v := by
  simp [storeVal, findVal]

theorem findVal_eraseKey_self {α : Type} (m : List (String × α)) (id : String) :
    findVal (eraseKey m id) id = none := by
  induction m with
  | nil => rfl
  | cons kv t ih =>
    obtain ⟨k, v⟩ := kv
    by_cases hk : k = id
    · simpa [eraseKey, hk] using ih
    · simpa [eraseKey, findVal, hk] using ih

theorem eraseKey_eraseKey {α : Type} (m : List (String × α)) (id : String) :
    eraseKey (eraseKey m id) id = eraseKey m id := by
  induction m with
  | nil => rfl
  | cons kv t ih =>
    obtain ⟨k, v⟩ := kv
    by_cases hk : k = id
    · simp [eraseKey, hk]
    · simp [eraseKey, hk]

theorem eraseKey_storeVal {α : Type} (m : List (String × α)) (id : String) (v : α) :
    eraseKey (storeVal m id v) id = eraseKey m id := by
  have h1 : eraseKey (storeVal m id v) id = eraseKey (eraseKey m id) id := by
    simp [storeVal, eraseKey]
  rw [h1, eraseKey_eraseKey]

theorem dereg_proxyMap_self (s : DynamicRouteState) (id : String) :
    findVal (deregisterReverseProxy s id).1.proxyMap id = none := by
  unfold deregisterReverseProxy
  cases hf : findVal s.proxyMap id with
  | none => simp [hf]
  | some p => simp [hf, findVal_eraseKey_self]

theorem routePath_inj {a b : String} (h : routePath a = routePath b) : a = b := by
  unfold routePath at h
  have hd := congrArg String.data h
  simp only [String.data_append, List.append_assoc] at hd
  have h2 : a.data ++ "/*any".data = b.data ++ "/*any".data :=
    List.append_cancel_left hd
  exact String.ext (List.append_cancel_right h2)

theorem routePath_length (j : String) : (routePath j).data.length = 14 + j.data.length := by
  unfold routePath
  simp only [String.data_append, List.length_append, List.length_cons, List.length_nil]
  omega

theorem routePath_not_base (j : String) : routePath j ∉ baseRoutes := by
  intro hmem
  have hlen : (routePath j).data.length = 14 + j.data.length := routePath_length j
  simp only [baseRoutes, List.mem_cons, List.not_mem_nil, or_false] at hmem
  rcases hmem with h | h | h <;>
    · rw [h] at hlen
      simp at hlen
      omega

theorem removeItem_mem_of_ne {l : List String} {x j : String} (hne : j ≠ x)
    (hmem : j ∈ l) : j ∈ removeItem l x := by
  induction l with
  | nil => simp at hmem
  | cons a t ih =>
    by_cases ha : a = x
    · simp only [removeItem, if_pos ha]
      rcases List.mem_cons.mp hmem with h | h
      · exact absurd (h.trans ha) hne
      · exact h
    · simp only [removeItem, if_neg ha]
      rcases List.mem_cons.mp hmem with h | h
      · exact h ▸ List.mem_cons_self a _
      · exact List.mem_cons_of_mem a (ih h)

theorem registeredIds_append (l₁ l₂ : List CandOutcome) :
    registeredIds (l₁ ++ l₂) = registeredIds l₁ ++ registeredIds l₂ := by
  simp [registeredIds]

theorem selectWinnerAux_spec (l : List CandOutcome) :
    ∀ (slice : List String) (pre : List CandOutcome) (w : CandOutcome),
      firstOk l = some (pre, w) →
      selectWinnerAux l slice =
        some ⟨w.rid.getD "",
              removeItem (slice ++ registeredIds (pre ++ [w])) (w.rid.getD ""), true⟩ := by
  induction l with
  | nil => intro slice pre w h; simp [firstOk] at h
  | cons a rest ih =>
    intro slice pre w h
    by_cases hok : a.ok = true
    · simp only [firstOk, if_pos hok, Option.some.injEq, Prod.mk.injEq] at h
      obtain ⟨h1, h2⟩ := h
      subst h1
      subst h2
      cases hr : a.rid with
      | none => simp [selectWinnerAux, hok, hr, registeredIds]
      | some r => simp [selectWinnerAux, hok, hr, registeredIds]
    · simp only [firstOk, if_neg hok] at h
      cases hfr : firstOk rest with
      | none => rw [hfr] at h; simp at h
      | some pw =>
        obtain ⟨pre', w'⟩ := pw
        rw [hfr] at h
        simp only [Option.some.injEq, Prod.mk.injEq] at h
        obtain ⟨h1, h2⟩ := h
        subst h1
        subst h2
        cases hr : a.rid with
        | none =>
          simp only [selectWinnerAux, hr, if_neg hok]
          rw [ih slice pre' w' hfr]
          simp [registeredIds, hr]
        | some r =>
          simp only [selectWinnerAux, hr, if_neg hok]
          rw [ih (slice ++ [r]) pre' w' hfr]
          simp [registeredIds, hr, List.append_assoc]

theorem firstOk_pre_not_ok (l : List CandOutcome) :
    ∀ (pre : List CandOutcome) (w : CandOutcome),
      firstOk l = some (pre, w) → (∀ a ∈ pre, a.ok = false) ∧ w.ok = true := by
  induction l with
  | nil => intro pre w h; simp [firstOk] at h
  | cons a rest ih =>
    intro pre w h
    by_cases hok : a.ok = true
    · simp only [firstOk, if_pos hok, Option.some.injEq, Prod.mk.injEq] at h
      obtain ⟨h1, h2⟩ := h
      subst h1
      subst h2
      exact ⟨by simp, hok⟩
    · simp only [firstOk, if_neg hok] at h
      cases hfr : firstOk rest with
      | none => rw [hfr] at h; simp at h
      | some pw =>
        obtain ⟨pre', w'⟩ := pw
        rw [hfr] at h
        simp only [Option.some.injEq, Prod.mk.injEq] at h
        obtain ⟨h1, h2⟩ := h
        subst h1
        subst h2
        obtain ⟨hpre, hw⟩ := ih pre' w' hfr
        refine ⟨?_, hw⟩
        intro b hb
        rcases List.mem_cons.mp hb with hb | hb
        · subst hb; simpa using hok
        · exact hpre b hb

/-! ### Claim theorems -/

/-- Claim C8 (confirmed): util.ExtractPort returns 8080 for a log containing
the line PORT=8080, returns 8080 for PORT=:8080, returns 8080 for a line whose
last colon-separated token is 8080 (host:8080), and yields 0 (the no-port
result) for a log whose only candidate line is PORT=abc. -/
theorem c8_extract_port_cases :
    ExtractPort "ready\nPORT=8080" = 8080 ∧
    ExtractPort "PORT=:8080" = 8080 ∧
    ExtractPort "host:8080" = 8080 ∧
    ExtractPort "PORT=abc" = 0 := by
  decide

/-- Claim C10 (confirmed): util.RuntimeHealthCheck issues an HTTP GET to
http://localhost:8080/runtime/runtimeID — a URL built from the hard-coded
literal port 8080, with no configuration input (the function takes only the
runtime id and the HTTP client; config.Config.Port never reaches it) — and
returns true exactly when the request succeeds with status code 200. -/
theorem c10_health_check_hardcoded_port :
    ∀ (httpGet : String → Option Nat) (id : String),
      (RuntimeHealthCheck httpGet id = true ↔
        httpGet ("http://localhost:8080/runtime/" ++ id) = some 200) ∧
      healthCheckURL id = "http://localhost:8080/runtime/" ++ id := by
  intro httpGet id
  constructor
  · unfold RuntimeHealthCheck healthCheckURL
    cases hg : httpGet ("http://localhost:8080/runtime/" ++ id) with
    | none => simp [hg]
    | some status => simp [hg]
  · rfl

/-- Claim C6 (confirmed): the 45 second watchdog of ExecuteRuntime, when no
port has been registered by the deadline, cancels the evaluation, sets
lastErrorMsg to "runtime never logged a port", transitions the state to
"error" and signals HandleRuntimeFailure; when a port has been registered it
does none of this (the record and all effect flags are untouched). -/
theorem c6_watchdog_fires_iff_unregistered :
    ∀ rt : Runtime,
      watchdogStep true rt = ⟨rt, false, false⟩ ∧
      (watchdogStep false rt).record.lastErrorMsg = "runtime never logged a port" ∧
      (watchdogStep false rt).record.state = "error" ∧
      (watchdogStep false rt).cancelledEvaluation = true ∧
      (watchdogStep false rt).signalledFailure = true := by
  intro rt
  refine ⟨rfl, ?_, ?_, ?_, ?_⟩ <;> simp [watchdogStep, stopRuntimeRecord]

/-- Claim C4 counterexample: on a runtime already stopped by StopRuntime, the
evaluation-completion handler run with the evaluation error "context canceled"
overwrites the state with "finished" — a state change beyond stopping, so the
claim's "no state change occurs beyond stopping" is false on the code. -/
theorem c4_counterexample :
    (evalCompletion (some "context canceled") 9
        (stopRuntimeRecord (prepareStore "r1" "P" "C" 0))).1.state = "finished" ∧
    (stopRuntimeRecord (prepareStore "r1" "P" "C" 0)).state = "stopped" ∧
    (evalCompletion (some "context canceled") 9
        (stopRuntimeRecord (prepareStore "r1" "P" "C" 0))).1.state ≠
      (stopRuntimeRecord (prepareStore "r1" "P" "C" 0)).state := by
  decide

/-- Claim C4 (corrected): when the evaluation ends with the error
"context canceled", cancellation is not treated as a failure — lastErrorMsg is
not written, the state does not become "error", and HandleRuntimeFailure is
not invoked — but, amending the claim, the completion handler does change the
state: it stores the record with state "finished" and records finishedAt. -/
theorem c4_cancellation_not_failure_but_finishes :
    ∀ (rt : Runtime) (now : Nat),
      (evalCompletion (some "context canceled") now rt).1.lastErrorMsg = rt.lastErrorMsg ∧
      (evalCompletion (some "context canceled") now rt).1.state = "finished" ∧
      (evalCompletion (some "context canceled") now rt).1.finishedAt = now ∧
      (evalCompletion (some "context canceled") now rt).2 = false := by
  intro rt now
  refine ⟨?_, ?_, ?_, ?_⟩ <;> simp [evalCompletion]

/-- Claim C1 counterexample: ExecuteRuntime's preamble store (service.go lines
278-282) on a freshly prepared runtime leaves the registry record with state
"running" while port is still 0 — a registry store with state running that
does not happen after a port has been recorded, so the claim as stated is
false on the code. -/
theorem c1_counterexample :
    ((executeRuntime
        ⟨[("r1", prepareStore "r1" "P" "C" 0)], [], 2, ⟨[], baseRoutes⟩⟩
        "r1" 1).2.1.getD 0 default).state = "running" ∧
    ((executeRuntime
        ⟨[("r1", prepareStore "r1" "P" "C" 0)], [], 2, ⟨[], baseRoutes⟩⟩
        "r1" 1).2.1.getD 0 default).port = 0 := by
  decide

/-- Claim C1 (corrected): not every store that leaves state "running" follows
a recorded port — ExecuteRuntime stores state running with port 0 when
evaluation begins. Amended: the registry stores performed by the log scanner
upon discovering the PORT beacon do set the port (to the positive value parsed
from the log) before or with every store it makes, and its first store is the
state-running record. -/
theorem c1_discovery_store_sets_port :
    ∀ (healthOk : Bool) (rt : Runtime),
      0 < ExtractPort rt.logs →
      ((scanStep healthOk false rt).writes.getD 0 default).state = "running" ∧
      ((scanStep healthOk false rt).writes.getD 0 default).port = ExtractPort rt.logs ∧
      (scanStep healthOk false rt).writes.length = 2 ∧
      ((scanStep healthOk false rt).writes.getD 1 default).port = ExtractPort rt.logs := by
  intro healthOk rt hp
  have hcond : 0 < ExtractPort rt.logs ∧ (false : Bool) = false := ⟨hp, rfl⟩
  cases healthOk <;>
    refine ⟨?_, ?_, ?_, ?_⟩ <;> simp [scanStep, hp]

/-- Claim C1 witness: the discovery store on a concrete runtime whose log
buffer holds the beacon PORT=8080. -/
theorem c1_discovery_store_sets_port_witness :
    0 < ExtractPort ({ prepareStore "r1" "P" "C" 0 with logs := "PORT=8080" } : Runtime).logs ∧
    ((scanStep true false
        { prepareStore "r1" "P" "C" 0 with logs := "PORT=8080" }).writes.getD 0
      default).state = "running" :=
  ⟨by decide,
   (c1_discovery_store_sets_port true
      { prepareStore "r1" "P" "C" 0 with logs := "PORT=8080" } (by decide)).1⟩

/-- Claim C2 counterexample: a runtime that passed its health check and then
failed (evaluation error after a healthy boot) is stored by the rebuild branch
of HandleRuntimeFailure with state "rebuilding" while passedHealthCheck is
still true — so "passedHealthCheck is never true while state is rebuilding"
and "passedHealthCheck = true implies state in {running, stopped, failed}"
are false on the code. The record below follows the actual transitions:
prepare, execute, port discovery with passing health check, evaluation panic,
then the rebuild store (the first registry write of HandleRuntimeFailure). -/
theorem c2_counterexample :
    ((handleRuntimeFailure (fun _ => "B")
        ⟨[("r1",
           (evalCompletion (some "runtime panicked: boom") 5
             (scanStep true false
               { executePreamble (prepareStore "r1" "P" "C" 0) 1 with
                 logs := "PORT=8080" }).record).1)],
          [], 3, ⟨[("r1", 8080)], baseRoutes ++ [routePath "r1"]⟩⟩
        false "C2" true 7 "r1").writes.getD 0 default).state = "rebuilding" ∧
    ((handleRuntimeFailure (fun _ => "B")
        ⟨[("r1",
           (evalCompletion (some "runtime panicked: boom") 5
             (scanStep true false
               { executePreamble (prepareStore "r1" "P" "C" 0) 1 with
                 logs := "PORT=8080" }).record).1)],
          [], 3, ⟨[("r1", 8080)], baseRoutes ++ [routePath "r1"]⟩⟩
        false "C2" true 7 "r1").writes.getD 0 default).passedHealthCheck = true := by
  decide

/-- Claim C2 (corrected): the initializing half of the claim holds — every
record PrepareRuntime stores when moving a runtime into "initializing" is a
fresh record with passedHealthCheck false — but the rebuild transition of
HandleRuntimeFailure does not reset passedHealthCheck: it stores state
"rebuilding" with the flag exactly as it was, so the flag can be true while
the state is "rebuilding". -/
theorem c2_initializing_fresh_rebuilding_preserves :
    (∀ (id prompt code : String) (now : Nat),
      (prepareStore id prompt code now).state = "initializing" ∧
      (prepareStore id prompt code now).passedHealthCheck = false) ∧
    (∀ (rt : Runtime) (newCode : String),
      (rebuildStore rt newCode).state = "rebuilding" ∧
      (rebuildStore rt newCode).passedHealthCheck = rt.passedHealthCheck) := by
  exact ⟨fun id prompt code now => ⟨rfl, rfl⟩, fun rt newCode => ⟨rfl, rfl⟩⟩

/-- Claim C3 counterexample: with rebuildCount at the retry limit,
HandleRuntimeFailure marks the record "failed" and then immediately
re-prepares the same runtime id (a fresh "initializing" store for "r1") and
re-executes it (a "running" store) — so "no component automatically
re-prepares or re-executes that runtime id afterwards" is false on the code
(service.go lines 424-434). -/
theorem c3_counterexample :
    (handleRuntimeFailure (fun _ => "B")
        ⟨[("r1", { prepareStore "r1" "P" "C" 0 with state := "error", rebuildCount := 2 })],
          [], 2, ⟨[("r1", 9)], baseRoutes ++ [routePath "r1"]⟩⟩
        false "newcode" true 7 "r1").outcome = HRFOutcome.exhaustedReprepared ∧
    ((handleRuntimeFailure (fun _ => "B")
        ⟨[("r1", { prepareStore "r1" "P" "C" 0 with state := "error", rebuildCount := 2 })],
          [], 2, ⟨[("r1", 9)], baseRoutes ++ [routePath "r1"]⟩⟩
        false "newcode" true 7 "r1").writes.getD 0 default).state = "failed" ∧
    ((handleRuntimeFailure (fun _ => "B")
        ⟨[("r1", { prepareStore "r1" "P" "C" 0 with state := "error", rebuildCount := 2 })],
          [], 2, ⟨[("r1", 9)], baseRoutes ++ [routePath "r1"]⟩⟩
        false "newcode" true 7 "r1").writes.getD 1 default).state = "initializing" ∧
    ((handleRuntimeFailure (fun _ => "B")
        ⟨[("r1", { prepareStore "r1" "P" "C" 0 with state := "error", rebuildCount := 2 })],
          [], 2, ⟨[("r1", 9)], baseRoutes ++ [routePath "r1"]⟩⟩
        false "newcode" true 7 "r1").writes.getD 1 default).id = "r1" ∧
    ((handleRuntimeFailure (fun _ => "B")
        ⟨[("r1", { prepareStore "r1" "P" "C" 0 with state := "error", rebuildCount := 2 })],
          [], 2, ⟨[("r1", 9)], baseRoutes ++ [routePath "r1"]⟩⟩
        false "newcode" true 7 "r1").writes.getD 2 default).state = "running" := by
  decide

/-- Claim C3 (corrected): when HandleRuntimeFailure observes rebuildCount at
or above the retry limit it does store the record as "failed" and deregisters
the proxy route, but the state is not terminal for automated recovery:
amending the claim, the same invocation then calls PrepareRuntime once more
with the original prompt, reusing the id (a fresh initializing record replaces
the failed one in the registry), and then ExecuteRuntime. -/
theorem c3_exhaustion_reprepares :
    ∀ (pb : String → String) (st : SvcState) (gptCode : String) (now : Nat)
      (id : String) (rt : Runtime),
      id ∉ st.activeRetries →
      findVal st.runtimes id = some rt →
      st.retryLimit ≤ rt.rebuildCount →
      (handleRuntimeFailure pb st false gptCode true now id).outcome =
        HRFOutcome.exhaustedReprepared ∧
      (handleRuntimeFailure pb st false gptCode true now id).writes =
        [{ rt with state := "failed" },
         prepareStore id (createPrompt (pb id) rt.prompt) gptCode now,
         executePreamble (prepareStore id (createPrompt (pb id) rt.prompt) gptCode now) now] ∧
      findVal (handleRuntimeFailure pb st false gptCode true now id).svc.proxy.proxyMap id =
        none ∧
      findVal (handleRuntimeFailure pb st false gptCode true now id).svc.runtimes id =
        some (executePreamble
          (prepareStore id (createPrompt (pb id) rt.prompt) gptCode now) now) := by
  intro pb st gptCode now id rt hflag hfind hlimit
  have hls : loadOrStore st.activeRetries id = (false, id :: st.activeRetries) := by
    simp [loadOrStore, hflag]
  unfold handleRuntimeFailure
  rw [hls]
  simp only [if_neg (Bool.false_ne_true), hfind, if_pos hlimit, if_pos rfl]
  unfold executeRuntime
  rw [findVal_storeVal_self]
  refine ⟨rfl, rfl, ?_, ?_⟩
  · exact dereg_proxyMap_self st.proxy id
  · exact findVal_storeVal_self _ _ _

/-- Claim C3 witness: the exhaustion branch applied to a concrete service
state whose runtime "r1" has rebuildCount 2 with retry limit 2. -/
theorem c3_exhaustion_reprepares_witness :
    "r1" ∉ (["x"] : List String) ∧
    (handleRuntimeFailure (fun _ => "B")
        ⟨[("r1", { prepareStore "r1" "P" "C" 0 with state := "error", rebuildCount := 2 })],
          ["x"], 2, ⟨[("r1", 9)], baseRoutes ++ [routePath "r1"]⟩⟩
        false "newcode" true 7 "r1").outcome = HRFOutcome.exhaustedReprepared :=
  ⟨by decide,
   (c3_exhaustion_reprepares (fun _ => "B")
      ⟨[("r1", { prepareStore "r1" "P" "C" 0 with state := "error", rebuildCount := 2 })],
        ["x"], 2, ⟨[("r1", 9)], baseRoutes ++ [routePath "r1"]⟩⟩
      "newcode" 7 "r1"
      { prepareStore "r1" "P" "C" 0 with state := "error", rebuildCount := 2 }
      (by decide) (by decide) (by decide)).1⟩

/-- Claim C5 (confirmed): HandleRuntimeFailure is single-flight per runtime
id. First conjunct: when the per-id flag is already set, the invocation
returns immediately as a no-op — the whole service state (registry included)
is unchanged and no registry write happens. Second conjunct: an invocation
that does enter clears the flag when it returns, on every path. Third
conjunct: the entry test-and-set (sync.Map.LoadOrStore) guarantees that of
two concurrent invocations for the same id — whichever order their atomic
test-and-sets execute in — the first obtains loaded = false and proceeds while
the second obtains loaded = true and no-ops, so exactly one rebuild runs. -/
theorem c5_single_flight :
    (∀ (pb : String → String) (st : SvcState) (cc : Bool) (gptCode : String)
        (vo : Bool) (now : Nat) (id : String),
      id ∈ st.activeRetries →
      handleRuntimeFailure pb st cc gptCode vo now id =
        ⟨st, [], HRFOutcome.skippedDuplicate⟩) ∧
    (∀ (pb : String → String) (st : SvcState) (cc : Bool) (gptCode : String)
        (vo : Bool) (now : Nat) (id : String),
      id ∉ st.activeRetries →
      (handleRuntimeFailure pb st cc gptCode vo now id).svc.activeRetries =
        st.activeRetries) ∧
    (∀ (flags : List String) (id : String),
      id ∉ flags →
      (loadOrStore flags id).1 = false ∧
      (loadOrStore (loadOrStore flags id).2 id).1 = true) := by
  refine ⟨?_, ?_, ?_⟩
  · intro pb st cc gptCode vo now id h
    have hls : loadOrStore st.activeRetries id = (true, st.activeRetries) := by
      simp [loadOrStore, h]
    unfold handleRuntimeFailure
    rw [hls]
  · intro pb st cc gptCode vo now id h
    have hls : loadOrStore st.activeRetries id = (false, id :: st.activeRetries) := by
      simp [loadOrStore, h]
    have hclear : (id :: st.activeRetries).filter (fun x => x ≠ id) = st.activeRetries := by
      have hhead : ((id : String) ≠ id) = False := by simp
      simp only [List.filter_cons, hhead, decide_False, Bool.false_eq_true, if_false]
      exact filter_ne_of_not_mem st.activeRetries id h
    unfold handleRuntimeFailure
    rw [hls]
    cases cc with
    | true => exact hclear
    | false =>
      cases hfind : findVal st.runtimes id with
      | none =>
        simp only [if_neg (Bool.false_ne_true), hfind]
        exact hclear
      | some rt =>
        simp only [if_neg (Bool.false_ne_true), hfind]
        by_cases hlim : st.retryLimit ≤ rt.rebuildCount
        · cases vo with
          | true =>
            simp only [if_pos hlim, if_pos rfl]
            exact hclear
          | false =>
            simp only [if_pos hlim, if_neg (Bool.false_ne_true)]
            exact hclear
        · simp only [if_neg hlim]
          exact hclear
  · intro flags id h
    constructor
    · simp [loadOrStore, h]
    · simp [loadOrStore, h]

/-- Claim C5 witness: both single-flight behaviours at concrete inputs — a
duplicate invocation with the flag set is the identity no-op, a fresh
invocation returns with the flag cleared, and the double test-and-set admits
exactly one winner. -/
theorem c5_single_flight_witness :
    (handleRuntimeFailure (fun _ => "B")
        ⟨[("r1", prepareStore "r1" "P" "C" 0)], ["r1"], 2, ⟨[], baseRoutes⟩⟩
        false "c" true 0 "r1" =
      ⟨⟨[("r1", prepareStore "r1" "P" "C" 0)], ["r1"], 2, ⟨[], baseRoutes⟩⟩,
        [], HRFOutcome.skippedDuplicate⟩) ∧
    ((handleRuntimeFailure (fun _ => "B")
        ⟨[("r1", prepareStore "r1" "P" "C" 0)], [], 2, ⟨[], baseRoutes⟩⟩
        false "c" true 0 "r1").svc.activeRetries = ([] : List String)) ∧
    ((loadOrStore [] "r1").1 = false ∧
      (loadOrStore (loadOrStore [] "r1").2 "r1").1 = true) :=
  ⟨c5_single_flight.1 (fun _ => "B") _ false "c" true 0 "r1" (by decide),
   c5_single_flight.2.1 (fun _ => "B") _ false "c" true 0 "r1" (by decide),
   c5_single_flight.2.2 [] "r1" (by decide)⟩

/-- Claim C7 counterexample: a two-candidate launch in which candidate B
completes NewExecution (so its runtime id was appended to the shared slice)
only after the winner A's success has been processed. The launcher returns
winner A with an empty stopped list: losing candidate B never had StopRuntime
invoked nor its proxy route deregistered before the winner's id was returned
(B's evaluation context is not derived from the candidate context — service.go
line 279 — so cancellation alone does not stop it). -/
theorem c7_counterexample :
    selectWinner [⟨some "A", true⟩, ⟨some "B", false⟩] =
      some ⟨"A", [], true⟩ ∧
    "B" ∈ registeredIds [⟨some "A", true⟩, ⟨some "B", false⟩] ∧
    "B" ∉ ([] : List String) := by
  decide

/-- Claim C7 (corrected): per invocation the launcher selects exactly one
winner — the candidate of the first successful result received, every earlier
result being a failure — cancels every candidate context, and invokes
StopRuntime and DeregisterReverseProxy, before returning the winner's id, on
exactly the ids recorded in the shared runtimes slice at that moment other
than the winner; every non-winner id registered before the winning result is
in the stopped set. Amending the claim: candidates whose registration reaches
the slice after the winner is processed are only context-cancelled, not
stopped. -/
theorem c7_winner_selection :
    ∀ (arrivals pre : List CandOutcome) (w : CandOutcome),
      firstOk arrivals = some (pre, w) →
      selectWinner arrivals =
        some ⟨w.rid.getD "",
              removeItem (registeredIds (pre ++ [w])) (w.rid.getD ""), true⟩ ∧
      (∀ a ∈ pre, a.ok = false) ∧
      w.ok = true ∧
      (∀ j ∈ registeredIds pre, j ≠ w.rid.getD "" →
        j ∈ removeItem (registeredIds (pre ++ [w])) (w.rid.getD "")) := by
  intro arrivals pre w h
  refine ⟨?_, (firstOk_pre_not_ok arrivals pre w h).1,
          (firstOk_pre_not_ok arrivals pre w h).2, ?_⟩
  · have hs := selectWinnerAux_spec arrivals [] pre w h
    simpa [selectWinner] using hs
  · intro j hj hne
    apply removeItem_mem_of_ne hne
    rw [registeredIds_append]
    exact List.mem_append_left _ hj

/-- Claim C7 witness: a launch whose first result is a failure from candidate
A and whose second result is the success of candidate B: B wins, and A — the
only id recorded in the slice besides the winner — is stopped before return. -/
theorem c7_winner_selection_witness :
    firstOk [⟨some "A", false⟩, ⟨some "B", true⟩] =
      some ([⟨some "A", false⟩], ⟨some "B", true⟩) ∧
    selectWinner [⟨some "A", false⟩, ⟨some "B", true⟩] =
      some ⟨"B", ["A"], true⟩ :=
  ⟨by decide, by
    have h := (c7_winner_selection [⟨some "A", false⟩, ⟨some "B", true⟩]
      [⟨some "A", false⟩] ⟨some "B", true⟩ (by decide)).1
    simpa [registeredIds, removeItem] using h⟩

theorem dereg_noop (s : DynamicRouteState) (id : String)
    (h : findVal s.proxyMap id = none) :
    deregisterReverseProxy s id = (s, true) := by
  unfold deregisterReverseProxy
  rw [h]

theorem routePath_mem_map (m : List (String × Int)) (j : String) :
    (routePath j ∈ m.map (fun kv => routePath kv.1)) ↔ j ∈ m.map Prod.fst := by
  simp only [List.mem_map]
  constructor
  · rintro ⟨kv, hkv, heq⟩
    exact ⟨kv, hkv, routePath_inj heq⟩
  · rintro ⟨kv, hkv, heq⟩
    exact ⟨kv, hkv, by rw [heq]⟩

theorem mem_keys_eraseKey {α : Type} (m : List (String × α)) (id j : String)
    (hj : j ≠ id) :
    j ∈ (eraseKey m id).map Prod.fst ↔ j ∈ m.map Prod.fst := by
  simp only [eraseKey, List.mem_map]
  constructor
  · rintro ⟨kv, hkv, heq⟩
    exact ⟨kv, (List.mem_filter.mp hkv).1, heq⟩
  · rintro ⟨kv, hkv, heq⟩
    refine ⟨kv, List.mem_filter.mpr ⟨hkv, ?_⟩, heq⟩
    simp only [decide_eq_true_eq]
    rw [heq]
    exact hj

/-- Claim C9 (confirmed): DeregisterReverseProxy called twice for the same id
is safe — after any first call, the second call warns and returns the state
unchanged — and, for every proxy table whose router carries the base routes
plus one route per registered proxy, Register(id, p) followed by
Deregister(id) leaves the presence of the route of every other id j
unchanged: the rebuilt router re-registers the base routes and every
remaining proxy. -/
theorem c9_deregister_safe_and_preserves_others :
    (∀ (s : DynamicRouteState) (id : String),
      deregisterReverseProxy (deregisterReverseProxy s id).1 id =
        ((deregisterReverseProxy s id).1, true)) ∧
    (∀ (m : List (String × Int)) (id : String) (p : Int) (j : String),
      j ≠ id →
      (routePath j ∈
          (deregisterReverseProxy (registerReverseProxy (wfState m) id p) id).1.routerRoutes ↔
        routePath j ∈ (wfState m).routerRoutes)) := by
  constructor
  · intro s id
    exact dereg_noop _ _ (dereg_proxyMap_self s id)
  · intro m id p j hj
    have hstep : deregisterReverseProxy (registerReverseProxy (wfState m) id p) id =
        (⟨eraseKey m id, baseRoutes ++ (eraseKey m id).map (fun kv => routePath kv.1)⟩,
          false) := by
      unfold deregisterReverseProxy
      rw [show (registerReverseProxy (wfState m) id p).proxyMap = storeVal m id p from rfl,
          findVal_storeVal_self, eraseKey_storeVal]
    rw [hstep]
    simp only [wfState, List.mem_append]
    constructor
    · rintro (hb | hm)
      · exact Or.inl hb
      · exact Or.inr ((routePath_mem_map m j).mpr
          ((mem_keys_eraseKey m id j hj).mp ((routePath_mem_map _ j).mp hm)))
    · rintro (hb | hm)
      · exact Or.inl hb
      · exact Or.inr ((routePath_mem_map _ j).mpr
          ((mem_keys_eraseKey m id j hj).mpr ((routePath_mem_map m j).mp hm)))

/-- Claim C9 witness: double deregistration on a one-proxy table, and
register-then-deregister of "b" preserving the route of "a". -/
theorem c9_deregister_witness :
    deregisterReverseProxy
        (deregisterReverseProxy (wfState [("a", 1)]) "a").1 "a" =
      ((deregisterReverseProxy (wfState [("a", 1)]) "a").1, true) ∧
    ("a" ≠ "b" ∧
      (routePath "a" ∈
          (deregisterReverseProxy
            (registerReverseProxy (wfState [("a", 1)]) "b" 2) "b").1.routerRoutes ↔
        routePath "a" ∈ (wfState [("a", 1)]).routerRoutes)) :=
  ⟨c9_deregister_safe_and_preserves_others.1 (wfState [("a", 1)]) "a",
   by decide,
   c9_deregister_safe_and_preserves_others.2 [("a", 1)] "b" 2 "a" (by decide)⟩

end Aegisx
